import Mathlib

/-!
Shallow embedding of talker.js 1.0.1 (`src/talker.js`).

The library opens a communication line between two window contexts over
`postMessage`.  We embed the `Talker` object as a record of its fields, and
each prototype method as a pure function from the record (plus the method's
arguments) to a new record together with the list of externally observable
events it emits (transport posts and `onMessage` invocations).

Modelling decisions, each tied to a line of the source:
* Window objects are identified by `Option Nat` (`none` models a null or
  missing window; any actual window object is JS-truthy).
* `remoteOrigin` is `Option String` (`none` models null/undefined; the empty
  string is JS-falsy, which matters in `_postMessage`).
* Serialized payloads are modelled at the level of their parse result: an
  inbound `MessageEvent` carries `Option WireObject`, where `none` stands for
  a payload on which `JSON.parse` throws (line 89-93 then uses `{}`, here
  `WireObject.empty`).
* `data` payloads are `Option String` (their structure is irrelevant to the
  protocol layer).
* The promise machinery of `send` (line 63-75) is embedded by the `futures`
  field: each `send` appends a `pending` entry for its message id; the
  resolver stored in `_sent` maps `pending` to `resolved m` and is a no-op on
  an already settled entry; the `setTimeout` rejection is the `timeoutFire`
  transition mapping `pending` to `timedOut`.  `Promise.race` semantics (first
  settlement wins) is exactly this "only `pending` moves" rule.
* `_sent` is a JS object keyed by message id; we keep its key set as a
  `List Nat`: assignment adds the key if absent, `delete` removes it, and the
  truthiness test `if (this._sent[id])` is list membership.
* `onMessage` being registered is the flag `onMessageSet`; calling it emits an
  `Event.broadcast`.
-/

/-- The constant `TALKER_TYPE` (line 6): the fixed protocol type tag. -/
def TALKER_TYPE : String := "application/x-talkerjs-v1+json"

/-- The constant `TALKER_ERR_TIMEOUT` (line 7): the timeout error message. -/
def TALKER_ERR_TIMEOUT : String := "timeout"

/-- An outgoing envelope, `Talker.OutgoingMessage` (lines 247-251): namespace
(field `nsp` here, `namespace` being a Lean keyword), data, the
response-correlation id, and the id freshly assigned by the owning talker. -/
structure OutgoingMessage where
  nsp : Option String
  data : Option String
  responseToId : Option Nat
  id : Nat
deriving Repr, DecidableEq

/-- An incoming envelope, `Talker.IncomingMessage` (lines 280-283): the id is
copied verbatim from the wire, so it may be absent. -/
structure IncomingMessage where
  nsp : Option String
  data : Option String
  id : Option Nat
deriving Repr, DecidableEq

/-- State of the promise returned by one `send` call: still pending, resolved
with an incoming response message, or rejected by the timeout. -/
inductive FutureState where
  | pending : FutureState
  | resolved : IncomingMessage → FutureState
  | timedOut : FutureState
deriving Repr, DecidableEq

/-- What `_postMessage` hands to the transport: either a handshake envelope
`{ type: TALKER_TYPE, handshake: true }` (flag `false` below) or
`{ type: TALKER_TYPE, handshakeConfirmation: true }` (flag `true`, matching
the `confirmation` parameter of `_sendHandshake`, lines 168-173), or a
serialized outgoing data message. -/
inductive Posted where
  | handshake : Bool → Posted
  | data : OutgoingMessage → Posted
deriving Repr, DecidableEq

/-- Externally observable events of a method call: a transport post
(`remoteWindow.postMessage`, line 191) or an `onMessage` callback invocation
(line 160). -/
inductive Event where
  | post : Posted → Event
  | broadcast : IncomingMessage → Event
deriving Repr, DecidableEq

/-- The parse result of an inbound payload: the fields `_receiveMessage` and
its callees read off the parsed object.  `handshake` and
`handshakeConfirmation` are the truthiness of those fields. -/
structure WireObject where
  type : Option String
  handshake : Bool
  handshakeConfirmation : Bool
  id : Option Nat
  responseToId : Option Nat
  nsp : Option String
  data : Option String
deriving Repr, DecidableEq

/-- The empty object `{}` substituted when `JSON.parse` throws (line 92). -/
def WireObject.empty : WireObject :=
  { type := none, handshake := false, handshakeConfirmation := false,
    id := none, responseToId := none, nsp := none, data := none }

/-- A `postMessage` `MessageEvent` as seen by `_receiveMessage`: payload parse
result, source window, and origin string. -/
structure MessageEvent where
  payload : Option WireObject
  source : Option Nat
  origin : String
deriving Repr, DecidableEq

/-- The `Talker` object state (constructor lines 26-47). -/
structure Talker where
  remoteWindow : Option Nat
  remoteOrigin : Option String
  timeout : Nat
  handshaken : Bool
  /-- Whether `resolveHandshake` has been invoked; the `handshake` promise is
  single-resolution, so further invocations are no-ops. -/
  handshakeResolved : Bool
  _id : Nat
  _queue : List OutgoingMessage
  _sent : List Nat
  /-- Settlement state of the promise returned by each `send`, keyed by the
  sent message's id. -/
  futures : List (Nat × FutureState)
  onMessageSet : Bool
deriving Repr, DecidableEq

/-- JS truthiness of the `remoteOrigin` value: null/undefined and the empty
string are falsy. -/
def truthyOrigin : Option String → Bool
  | some s => s ≠ ""
  | none => false

/-- JS truthiness of an optional numeric field: undefined/null and 0 are
falsy. -/
def truthyNat : Option Nat → Bool
  | some n => n ≠ 0
  | none => false

/-- The JS expression `responseToId || null` (line 249): a falsy value (absent
or 0) becomes null. -/
def orNull (r : Option Nat) : Option Nat :=
  if r = some 0 then none else r

/-- Key-set update for the JS object assignment `this._sent[id] = resolve`
(line 66): object keys are unique, so adding an existing key keeps the set. -/
def sentSet (l : List Nat) (k : Nat) : List Nat :=
  if k ∈ l then l else l ++ [k]

/-- Key-set update for `delete this._sent[id]` (line 150). -/
def sentDelete (l : List Nat) (k : Nat) : List Nat :=
  l.filter (fun x => x ≠ k)

/-- Invoking the stored resolver for id `k` with message `m`: a promise
settles at most once, so only a `pending` entry moves to `resolved m`. -/
def resolveAttempt (l : List (Nat × FutureState)) (k : Nat) (m : IncomingMessage) :
    List (Nat × FutureState) :=
  l.map fun p =>
    if p.1 = k then
      (p.1, match p.2 with
            | FutureState.pending => FutureState.resolved m
            | s => s)
    else p

/-- The timeout rejection for id `k` (line 73): `Promise.race` rejects only if
no settlement happened first, so only a `pending` entry moves to `timedOut`. -/
def rejectAttempt (l : List (Nat × FutureState)) (k : Nat) :
    List (Nat × FutureState) :=
  l.map fun p =>
    if p.1 = k then
      (p.1, match p.2 with
            | FutureState.pending => FutureState.timedOut
            | s => s)
    else p

/-- Settlement state of the future for id `k`, if one was ever created. -/
def lookupFuture (l : List (Nat × FutureState)) (k : Nat) : Option FutureState :=
  (l.find? fun p => p.1 == k).map fun p => p.2

/-- `Talker.prototype._nextId` (lines 180-182): `return this._id += 1`. -/
def Talker._nextId (t : Talker) : Nat × Talker :=
  (t._id + 1, { t with _id := t._id + 1 })

/-- The `Talker.OutgoingMessage` constructor (lines 247-251): sets
`responseToId = responseToId || null` and `id = talker._nextId()`. -/
def Talker.newOutgoingMessage (t : Talker) (nsp data : Option String)
    (responseToId : Option Nat) : OutgoingMessage × Talker :=
  let (i, t') := t._nextId
  ({ nsp := nsp, data := data, responseToId := orNull responseToId, id := i }, t')

/-- The guard of `_postMessage` (line 190): `this.remoteWindow && this.remoteOrigin`. -/
def Talker.configured (t : Talker) : Bool :=
  t.remoteWindow.isSome && truthyOrigin t.remoteOrigin

/-- `Talker.prototype._postMessage` (lines 189-193): posts to the transport
only when both `remoteWindow` and `remoteOrigin` are truthy; otherwise does
nothing.  It never changes the talker's state, so it returns only events. -/
def Talker._postMessage (t : Talker) (p : Posted) : List Event :=
  if t.remoteWindow.isSome && truthyOrigin t.remoteOrigin then [Event.post p] else []

/-- `Talker.prototype._sendHandshake` (lines 168-173): posts a handshake
envelope whose kind is `handshakeConfirmation` when `confirmation` is truthy
and `handshake` otherwise. -/
def Talker._sendHandshake (t : Talker) (confirmation : Bool) : List Event :=
  t._postMessage (Posted.handshake confirmation)

/-- `Talker.prototype._flushQueue` (lines 200-208): when `handshaken`, shift
the head of the queue, post it, and recurse while the queue is nonempty; when
not `handshaken`, leave the queue untouched. -/
def Talker._flushQueue (t : Talker) : Talker × List Event :=
  if t.handshaken then
    match _h : t._queue with
    | [] => (t, [])
    | m :: rest =>
      let evs := t._postMessage (Posted.data m)
      let (t', evs') := Talker._flushQueue { t with _queue := rest }
      (t', evs ++ evs')
  else (t, [])
termination_by t._queue.length
decreasing_by simp [_h]

/-- `Talker.prototype.send` (lines 58-76): construct an outgoing message
(assigning the next id), store its resolver in `_sent`, create the pending
future of the race, push the message onto the queue, and flush.  Returns the
new state, the sent message's id (identifying the returned promise), and the
emitted events. -/
def Talker.send (t : Talker) (nsp data : Option String) (responseToId : Option Nat) :
    Talker × Nat × List Event :=
  let (message, t1) := t.newOutgoingMessage nsp data responseToId
  let t2 := { t1 with
    _sent := sentSet t1._sent message.id,
    futures := t1.futures ++ [(message.id, FutureState.pending)],
    _queue := t1._queue ++ [message] }
  let (t3, evs) := t2._flushQueue
  (t3, message.id, evs)

/-- The `setTimeout` rejection scheduled by `send` (line 73) firing for the
send with id `k`: rejects that send's race with the timeout error if it is
still pending.  Nothing else in the timeout callback touches the state; in
particular `_sent[k]` is NOT deleted. -/
def Talker.timeoutFire (t : Talker) (k : Nat) : Talker :=
  { t with futures := rejectAttempt t.futures k }

/-- `Talker.prototype._respondToMessage` (lines 147-152): if a resolver for
`id` is stored, invoke it with the message and delete it; otherwise do
nothing. -/
def Talker._respondToMessage (t : Talker) (id : Nat) (message : IncomingMessage) :
    Talker × List Event :=
  if id ∈ t._sent then
    ({ t with futures := resolveAttempt t.futures id message,
              _sent := sentDelete t._sent id }, [])
  else (t, [])

/-- `Talker.prototype._broadcastMessage` (lines 159-161): call `onMessage`
with the message when a callback is registered. -/
def Talker._broadcastMessage (t : Talker) (message : IncomingMessage) :
    Talker × List Event :=
  (t, if t.onMessageSet then [Event.broadcast message] else [])

/-- `Talker.prototype._handleMessage` (lines 135-139): wrap the raw object as
an incoming message; a truthy `responseToId` routes to `_respondToMessage`,
anything else to `_broadcastMessage`. -/
def Talker._handleMessage (t : Talker) (rawObject : WireObject) : Talker × List Event :=
  let message : IncomingMessage :=
    { nsp := rawObject.nsp, data := rawObject.data, id := rawObject.id }
  if truthyNat rawObject.responseToId then
    t._respondToMessage (rawObject.responseToId.getD 0) message
  else
    t._broadcastMessage message

/-- `Talker.prototype._handleHandshake` (lines 123-128): on a handshake
request, reply with `_sendHandshake(this.handshaken)` — note this reads
`handshaken` BEFORE the next line sets it to true; then set `handshaken`,
resolve the handshake promise, and flush the queue. -/
def Talker._handleHandshake (t : Talker) (object : WireObject) : Talker × List Event :=
  let evs1 := if object.handshake then t._sendHandshake t.handshaken else []
  let t1 := { t with handshaken := true, handshakeResolved := true }
  let (t2, evs2) := t1._flushQueue
  (t2, evs1 ++ evs2)

/-- `Talker.prototype._isSafeMessage` (lines 108-116). -/
def Talker._isSafeMessage (t : Talker) (source : Option Nat) (origin : String)
    (type : Option String) : Bool :=
  let safeSource := source == t.remoteWindow
  let safeOrigin := (t.remoteOrigin == some "*") || (some origin == t.remoteOrigin)
  let safeType := type == some TALKER_TYPE
  safeSource && safeOrigin && safeType

/-- `Talker.prototype._receiveMessage` (lines 85-98): parse (a failed parse
yields `{}`), filter through `_isSafeMessage`, then dispatch handshake
messages to `_handleHandshake` and the rest to `_handleMessage`. -/
def Talker._receiveMessage (t : Talker) (messageEvent : MessageEvent) :
    Talker × List Event :=
  let object := messageEvent.payload.getD WireObject.empty
  if !t._isSafeMessage messageEvent.source messageEvent.origin object.type then
    (t, [])
  else if object.handshake || object.handshakeConfirmation then
    t._handleHandshake object
  else
    t._handleMessage object

/-- The `Talker` constructor (lines 26-47): fields as initialized there
(`timeout = 3000`, `handshaken = false`, `_id = 0`, empty queue and tables),
followed by the initial `_sendHandshake()` (confirmation argument absent,
hence falsy). -/
def Talker.init (remoteWindow : Option Nat) (remoteOrigin : Option String) :
    Talker × List Event :=
  let t : Talker :=
    { remoteWindow := remoteWindow, remoteOrigin := remoteOrigin, timeout := 3000,
      handshaken := false, handshakeResolved := false,
      _id := 0, _queue := [], _sent := [], futures := [], onMessageSet := false }
  (t, t._sendHandshake false)

/-- `Talker.IncomingMessage.prototype.respond` (lines 294-296):
`return this.talker.send(null, data, this.id)`. -/
def IncomingMessage.respond (message : IncomingMessage) (t : Talker)
    (data : Option String) : Talker × Nat × List Event :=
  t.send none data message.id

/-- One `send` call's arguments: namespace, data, responseToId. -/
def SendCall := Option String × Option String × Option Nat
deriving DecidableEq

/-- Issue a list of `send` calls in order, collecting the emitted events. -/
def sendAll (t : Talker) : List SendCall → Talker × List Event
  | [] => (t, [])
  | c :: cs =>
    let (t1, _, evs1) := t.send c.1 c.2.1 c.2.2
    let (t2, evs2) := sendAll t1 cs
    (t2, evs1 ++ evs2)

/-- The outgoing messages that a list of `send` calls starting from id
counter `i` constructs, in call order. -/
def expectedMessages (i : Nat) : List SendCall → List OutgoingMessage
  | [] => []
  | c :: cs =>
    { nsp := c.1, data := c.2.1, responseToId := orNull c.2.2, id := i + 1 } ::
      expectedMessages (i + 1) cs

/-- Construct a list of outgoing messages in order (the constructor calls of
`Talker.OutgoingMessage`, each drawing a fresh id from the talker). -/
def constructAll (t : Talker) : List SendCall → List OutgoingMessage × Talker
  | [] => ([], t)
  | c :: cs =>
    let (m, t1) := t.newOutgoingMessage c.1 c.2.1 c.2.2
    let (ms, t2) := constructAll t1 cs
    (m :: ms, t2)

/-! ## Concrete states and messages used by witnesses and counterexamples -/

/-- A ready talker: handshaken, configured (window `1`, wildcard origin), with
an `onMessage` callback registered. -/
def tReady : Talker :=
  { remoteWindow := some 1, remoteOrigin := some "*", timeout := 3000,
    handshaken := true, handshakeResolved := true,
    _id := 0, _queue := [], _sent := [], futures := [], onMessageSet := true }

/-- A freshly constructed talker: same configuration, handshake pending. -/
def tPending : Talker :=
  { tReady with handshaken := false, handshakeResolved := false }

/-- A wire handshake-request envelope. -/
def wHandshakeReq : WireObject :=
  { WireObject.empty with type := some TALKER_TYPE, handshake := true }

/-- A wire handshake-confirmation envelope. -/
def wHandshakeConf : WireObject :=
  { WireObject.empty with type := some TALKER_TYPE, handshakeConfirmation := true }

/-- A wire data envelope answering message id 1. -/
def wResponse1 : WireObject :=
  { WireObject.empty with type := some TALKER_TYPE, id := some 9,
                          responseToId := some 1, data := some "late" }

/-- A message event from the expected window carrying a handshake request. -/
def evHandshakeReq : MessageEvent :=
  { payload := some wHandshakeReq, source := some 1, origin := "https://remote.example" }

/-- A message event from the expected window carrying a handshake
confirmation. -/
def evHandshakeConf : MessageEvent :=
  { payload := some wHandshakeConf, source := some 1, origin := "https://remote.example" }

/-- Two send calls used by the C1 witness. -/
def twoCalls : List SendCall :=
  [(some "a", some "1", none), (some "b", some "2", none)]

/-- The talker state right after `tReady.send("ns", "ping")`: one pending
future with id 1, the message already posted. -/
def tAfterSend : Talker := (tReady.send (some "ns") (some "ping") none).1

/-- An incoming message whose id is 0 (a value the wire can carry, and which
`responseToId || null` squashes to null). -/
def mZero : IncomingMessage := { nsp := some "ns", data := some "x", id := some 0 }

/-- An incoming message carrying id 1 (a request this side will respond to). -/
def mOne : IncomingMessage := { nsp := some "q", data := none, id := some 1 }

/-- A message event whose payload failed to parse. -/
def evGarbage : MessageEvent :=
  { payload := none, source := some 1, origin := "https://remote.example" }

/-- A talker with no remote window configured. -/
def tNoWindow : Talker := { tReady with remoteWindow := none }

/-! ## Helper lemmas shared by the claim theorems -/

/-- Flushing while the handshake is pending is a no-op (line 201: the whole
body is guarded by `this.handshaken`). -/
theorem flushQueue_pending (t : Talker) (h : t.handshaken = false) :
    t._flushQueue = (t, []) := by
  unfold Talker._flushQueue
  simp [h]

/-- Evaluating `_postMessage` is insensitive to the non-configuration fields,
which lets the flush recursion reuse the original talker's post behaviour. -/
theorem postMessage_fields (t : Talker) (q : List OutgoingMessage) (p : Posted) :
    Talker._postMessage { t with _queue := q } p = t._postMessage p := rfl

/-- Flushing once handshaken drains the whole queue, posting each entry in
insertion order. -/
theorem flushQueue_drain (q : List OutgoingMessage) : ∀ t : Talker, t._queue = q →
    t.handshaken = true →
    t._flushQueue =
      ({ t with _queue := [] }, q.flatMap fun m => t._postMessage (Posted.data m)) := by
  induction q with
  | nil =>
    intro t hq hh
    unfold Talker._flushQueue
    rw [if_pos hh]
    split
    · cases t
      simp_all
    · simp_all
  | cons m rest ih =>
    intro t hq hh
    have step := ih { t with _queue := rest } rfl hh
    unfold Talker._flushQueue
    rw [if_pos hh]
    split
    · simp_all
    · rename_i m' rest' heq
      rw [hq] at heq
      cases heq
      rw [step]
      simp [Talker._postMessage]

/-- A configured talker's `_postMessage` performs exactly one transport post. -/
theorem postMessage_configured (t : Talker) (p : Posted) (h : t.configured = true) :
    t._postMessage p = [Event.post p] := by
  unfold Talker.configured at h
  unfold Talker._postMessage
  simp [h]

/-- An unconfigured talker's `_postMessage` performs no transport post. -/
theorem postMessage_unconfigured (t : Talker) (p : Posted) (h : t.configured = false) :
    t._postMessage p = [] := by
  unfold Talker.configured at h
  unfold Talker._postMessage
  simp [h]

/-- The events of a flush: nothing while pending, one `_postMessage` per
queued envelope in insertion order once handshaken. -/
theorem flushQueue_events (t : Talker) :
    (t._flushQueue).2 =
      if t.handshaken then t._queue.flatMap fun m => t._postMessage (Posted.data m)
      else [] := by
  by_cases hh : t.handshaken
  · rw [flushQueue_drain t._queue t rfl hh]
    simp [hh]
  · rw [flushQueue_pending t (by simpa using hh)]
    simp [hh]

/-- `_handleHandshake` in closed form: the optional reply (computed from the
PRE-receipt `handshaken` flag), then the handshake state update, then the
queue drain. -/
theorem handleHandshake_general (t : Talker) (w : WireObject) :
    t._handleHandshake w =
      ({ t with handshaken := true, handshakeResolved := true, _queue := [] },
       (if w.handshake then t._sendHandshake t.handshaken else []) ++
         t._queue.flatMap fun m => t._postMessage (Posted.data m)) := by
  unfold Talker._handleHandshake
  simp only [flushQueue_drain t._queue { t with handshaken := true, handshakeResolved := true }
    rfl rfl]
  rfl

/-- A `send` while the handshake is pending only assigns the id, registers the
resolver and pending future, and appends the envelope to the queue; no event
is emitted. -/
theorem send_pending (t : Talker) (nsp data : Option String) (rid : Option Nat)
    (hh : t.handshaken = false) :
    t.send nsp data rid =
      ({ t with _id := t._id + 1,
                _sent := sentSet t._sent (t._id + 1),
                futures := t.futures ++ [(t._id + 1, FutureState.pending)],
                _queue := t._queue ++
                  [{ nsp := nsp, data := data, responseToId := orNull rid, id := t._id + 1 }] },
       t._id + 1, []) := by
  unfold Talker.send Talker.newOutgoingMessage Talker._nextId
  simp [flushQueue_pending, hh]

/-- A sequence of `send` calls while pending emits nothing, appends the
constructed envelopes in call order, and leaves the handshake flag and the
configuration fields unchanged. -/
theorem sendAll_pending (calls : List SendCall) : ∀ t : Talker, t.handshaken = false →
    (sendAll t calls).2 = [] ∧
    (sendAll t calls).1._queue = t._queue ++ expectedMessages t._id calls ∧
    (sendAll t calls).1.handshaken = false ∧
    (sendAll t calls).1.remoteWindow = t.remoteWindow ∧
    (sendAll t calls).1.remoteOrigin = t.remoteOrigin := by
  induction calls with
  | nil =>
    intro t hh
    simp [sendAll, expectedMessages, hh]
  | cons c cs ih =>
    intro t hh
    have hsend := send_pending t c.1 c.2.1 c.2.2 hh
    obtain ⟨ih1, ih2, ih3, ih4, ih5⟩ := ih
      { t with _id := t._id + 1,
               _sent := sentSet t._sent (t._id + 1),
               futures := t.futures ++ [(t._id + 1, FutureState.pending)],
               _queue := t._queue ++
                 [{ nsp := c.1, data := c.2.1, responseToId := orNull c.2.2, id := t._id + 1 }] }
      hh
    simp only [sendAll, hsend, ih1, ih2, ih3, ih4, ih5]
    simp [expectedMessages, List.append_assoc]

/-- Looking up key `k` after mapping the value stored at `k` through `f`. -/
theorem lookupFuture_mapVal (f : FutureState → FutureState)
    (l : List (Nat × FutureState)) (k : Nat) :
    lookupFuture (l.map fun p => if p.1 = k then (p.1, f p.2) else p) k =
      (lookupFuture l k).map f := by
  induction l with
  | nil => rfl
  | cons p rest ih =>
    by_cases h : p.1 = k
    · simp [lookupFuture, List.find?, h]
    · have hb : (p.1 == k) = false := by simp [h]
      simp only [List.map_cons, lookupFuture, List.find?] at ih ⊢
      simp only [h, if_false, hb]
      exact ih

/-- The timeout rejection maps the stored settlement state for `k` through
"pending becomes timedOut" and touches nothing else. -/
theorem lookupFuture_reject (l : List (Nat × FutureState)) (k : Nat) :
    lookupFuture (rejectAttempt l k) k =
      (lookupFuture l k).map fun s =>
        match s with
        | FutureState.pending => FutureState.timedOut
        | s => s :=
  lookupFuture_mapVal
    (fun s => match s with
              | FutureState.pending => FutureState.timedOut
              | s => s) l k

/-- A resolver invocation maps the stored settlement state for `k` through
"pending becomes resolved" and touches nothing else. -/
theorem lookupFuture_resolve (l : List (Nat × FutureState)) (k : Nat) (m : IncomingMessage) :
    lookupFuture (resolveAttempt l k m) k =
      (lookupFuture l k).map fun s =>
        match s with
        | FutureState.pending => FutureState.resolved m
        | s => s :=
  lookupFuture_mapVal
    (fun s => match s with
              | FutureState.pending => FutureState.resolved m
              | s => s) l k

/-- Deleting key `k` removes it from the key set. -/
theorem not_mem_sentDelete (l : List Nat) (k : Nat) : k ∉ sentDelete l k := by
  simp [sentDelete]

/-- The ids assigned by a run of `Talker.OutgoingMessage` constructions are
the consecutive values following the current counter, and the counter ends
advanced by the number of constructions. -/
theorem constructAll_ids (calls : List SendCall) : ∀ t : Talker,
    ((constructAll t calls).1.map OutgoingMessage.id) =
      List.range' (t._id + 1) calls.length ∧
    (constructAll t calls).2._id = t._id + calls.length := by
  induction calls with
  | nil =>
    intro t
    simp [constructAll]
  | cons c cs ih =>
    intro t
    obtain ⟨ih1, ih2⟩ := ih { t with _id := t._id + 1 }
    simp only [constructAll, Talker.newOutgoingMessage, Talker._nextId] at *
    refine ⟨?_, ?_⟩
    · simp [ih1, List.range'_succ]
      try omega
    · simp [ih2]
      try omega

/-- Closed form of a flush on a handshaken talker. -/
theorem flushQueue_eq (t : Talker) (hh : t.handshaken = true) :
    t._flushQueue =
      ({ t with _queue := [] },
       t._queue.flatMap fun m => t._postMessage (Posted.data m)) :=
  flushQueue_drain t._queue t rfl hh

/-- A `send` on a handshaken talker transmits immediately: the queue (which
gains the new envelope) is drained in full and ends empty. -/
theorem send_established (t : Talker) (nsp data : Option String) (rid : Option Nat)
    (hh : t.handshaken = true) :
    t.send nsp data rid =
      ({ t with _id := t._id + 1,
                _sent := sentSet t._sent (t._id + 1),
                futures := t.futures ++ [(t._id + 1, FutureState.pending)],
                _queue := [] },
       t._id + 1,
       (t._queue ++
         [({ nsp := nsp, data := data, responseToId := orNull rid,
             id := t._id + 1 } : OutgoingMessage)]).flatMap
           fun m => t._postMessage (Posted.data m)) := by
  unfold Talker.send Talker.newOutgoingMessage Talker._nextId
  simp [flushQueue_eq, hh]
  rfl

/-- The state reached by `tAfterSend`, spelled out. -/
theorem tAfterSend_eq :
    tAfterSend = { tReady with _id := 1, _sent := [1],
                               futures := [(1, FutureState.pending)] } := by
  unfold tAfterSend
  rw [send_established tReady _ _ _ rfl]
  decide

/-- On a configured talker, draining a queue posts exactly one transport event
per envelope, in order. -/
theorem flatMap_post (t : Talker) (h : t.configured = true) (q : List OutgoingMessage) :
    (q.flatMap fun m => t._postMessage (Posted.data m)) =
      q.map fun m => Event.post (Posted.data m) := by
  induction q with
  | nil => rfl
  | cons a q ih =>
    rw [List.flatMap_cons, ih]
    simp [postMessage_configured _ _ h]

/-- On an unconfigured talker, draining a queue posts nothing. -/
theorem flatMap_post_nil (t : Talker) (h : t.configured = false) (q : List OutgoingMessage) :
    (q.flatMap fun m => t._postMessage (Posted.data m)) = [] := by
  induction q with
  | nil => rfl
  | cons a q ih =>
    rw [List.flatMap_cons, ih]
    simp [postMessage_unconfigured _ _ h]

/-! ## Claim theorems -/

/-- C1: while `handshaken` is false no envelope reaches the transport — every
`send` merely queues, flush being a no-op that keeps insertion order — and
once the handshake completes (receipt of an accepted handshake envelope, here
a confirmation) the queued envelopes are posted strictly in FIFO insertion
order, one transport post per envelope, until the queue is empty; no entry is
reordered or dropped except by transmission. -/
theorem c1_prehandshake_fifo (t : Talker) (calls : List SendCall) (w : WireObject)
    (hh : t.handshaken = false)
    (hcfg : t.configured = true)
    (hw : w.handshake = false) :
    (sendAll t calls).2 = [] ∧
    (sendAll t calls).1._queue = t._queue ++ expectedMessages t._id calls ∧
    (sendAll t calls).1.handshaken = false ∧
    ((sendAll t calls).1._handleHandshake w).2 =
      ((sendAll t calls).1._queue.map fun m => Event.post (Posted.data m)) ∧
    ((sendAll t calls).1._handleHandshake w).1._queue = [] := by
  obtain ⟨h1, h2, h3, h4, h5⟩ := sendAll_pending calls t hh
  have hcfg' : (sendAll t calls).1.configured = true := by
    unfold Talker.configured at hcfg ⊢
    rw [h4, h5]
    exact hcfg
  refine ⟨h1, h2, h3, ?_, ?_⟩
  · rw [handleHandshake_general]
    simp only [hw, Bool.false_eq_true, if_false, List.nil_append]
    exact flatMap_post _ hcfg' _
  · rw [handleHandshake_general]

/-- C1 witness: two sends on a fresh configured talker, then a handshake
confirmation; the flush posts both queued envelopes in order. -/
theorem c1_witness :
    ((sendAll tPending twoCalls).1._handleHandshake wHandshakeConf).2 =
      ((sendAll tPending twoCalls).1._queue.map fun m => Event.post (Posted.data m)) :=
  (c1_prehandshake_fifo tPending twoCalls wHandshakeConf rfl (by decide) rfl).2.2.2.1

/-- C2: an inbound message is accepted exactly when the source equals
`remoteWindow`, the origin matches `remoteOrigin` (or `remoteOrigin` is the
wildcard), and the declared type equals the protocol tag; when any check
fails, `_receiveMessage` returns the state unchanged and emits no event (no
`onMessage` call, no post, no change to `handshaken`, queue, `_sent`, or the
id counter); when all pass, the message is dispatched to the handshake or
message handler. -/
theorem c2_inbound_filter (t : Talker) (ev : MessageEvent) :
    (t._isSafeMessage ev.source ev.origin (ev.payload.getD WireObject.empty).type =
      ((ev.source == t.remoteWindow) &&
       ((t.remoteOrigin == some "*") || (some ev.origin == t.remoteOrigin)) &&
       ((ev.payload.getD WireObject.empty).type == some TALKER_TYPE))) ∧
    (t._isSafeMessage ev.source ev.origin (ev.payload.getD WireObject.empty).type = false →
      t._receiveMessage ev = (t, [])) ∧
    (t._isSafeMessage ev.source ev.origin (ev.payload.getD WireObject.empty).type = true →
      t._receiveMessage ev =
        (if (ev.payload.getD WireObject.empty).handshake ||
            (ev.payload.getD WireObject.empty).handshakeConfirmation then
          t._handleHandshake (ev.payload.getD WireObject.empty)
        else
          t._handleMessage (ev.payload.getD WireObject.empty))) := by
  refine ⟨rfl, ?_, ?_⟩
  · intro h
    unfold Talker._receiveMessage
    simp [h]
  · intro h
    unfold Talker._receiveMessage
    simp [h]

/-- C2 witness: a well-formed envelope with the correct protocol tag, from the
right window, but with a non-matching origin, is silently discarded. -/
theorem c2_witness :
    Talker._receiveMessage
      { tReady with remoteOrigin := some "https://a.example" }
      { payload := some wHandshakeReq, source := some 1, origin := "https://b.example" } =
      ({ tReady with remoteOrigin := some "https://a.example" }, []) :=
  (c2_inbound_filter { tReady with remoteOrigin := some "https://a.example" }
      { payload := some wHandshakeReq, source := some 1, origin := "https://b.example" }).2.1
    (by decide)

/-- C3 counterexample: after `tReady.send` (message id 1) and the timeout
firing, the future is rejected as timed out, but — contrary to the claim —
the `_sent[1]` entry is NOT released; and when an accepted response for id 1
then arrives, `_handleMessage` emits no event at all (in particular no
`onMessage` broadcast, even though a callback is registered): the stale
resolver is invoked as a no-op and only then is the entry deleted. -/
theorem c3_counterexample :
    lookupFuture (tAfterSend.timeoutFire 1).futures 1 = some FutureState.timedOut ∧
    1 ∈ (tAfterSend.timeoutFire 1)._sent ∧
    (tAfterSend.timeoutFire 1).onMessageSet = true ∧
    ((tAfterSend.timeoutFire 1)._handleMessage wResponse1).2 = [] ∧
    1 ∉ ((tAfterSend.timeoutFire 1)._handleMessage wResponse1).1._sent := by
  simp only [tAfterSend_eq]
  decide

/-- C3 amended: if no response arrives before the timeout fires, the returned
future fails with the timeout rejection, but the send's `pendingResponses`
entry is NOT released by the timeout; an accepted response for that id
arriving afterwards finds the stale entry, invokes its resolver — a no-op,
since the race already settled, so the future stays timed out — deletes the
entry, and is NOT delivered to `onMessage` (no event is emitted). -/
theorem c3_timeout_keeps_entry (t : Talker) (k : Nat) (w : WireObject)
    (hsent : k ∈ t._sent)
    (hfut : lookupFuture t.futures k = some FutureState.pending)
    (hw : w.responseToId = some k) (hk : k ≠ 0) :
    lookupFuture (t.timeoutFire k).futures k = some FutureState.timedOut ∧
    (t.timeoutFire k)._sent = t._sent ∧
    ((t.timeoutFire k)._handleMessage w).2 = [] ∧
    lookupFuture ((t.timeoutFire k)._handleMessage w).1.futures k =
      some FutureState.timedOut ∧
    k ∉ ((t.timeoutFire k)._handleMessage w).1._sent := by
  have hrej : lookupFuture (t.timeoutFire k).futures k = some FutureState.timedOut := by
    unfold Talker.timeoutFire
    rw [lookupFuture_reject, hfut]
    rfl
  have hmsg : (t.timeoutFire k)._handleMessage w =
      Talker._respondToMessage (t.timeoutFire k) k
        { nsp := w.nsp, data := w.data, id := w.id } := by
    unfold Talker._handleMessage
    simp [hw, truthyNat, hk]
  refine ⟨hrej, rfl, ?_, ?_, ?_⟩
  · rw [hmsg]
    unfold Talker._respondToMessage
    simp [hsent, Talker.timeoutFire]
  · rw [hmsg]
    unfold Talker._respondToMessage
    simp only [Talker.timeoutFire]
    simp only [hsent, if_pos]
    rw [lookupFuture_resolve]
    unfold Talker.timeoutFire at hrej
    simp only at hrej
    rw [hrej]
    rfl
  · rw [hmsg]
    unfold Talker._respondToMessage
    simp only [Talker.timeoutFire]
    simp only [hsent, if_pos]
    exact not_mem_sentDelete _ _

/-- C3 witness: the amended behaviour at the concrete post-send state. -/
theorem c3_witness :
    lookupFuture ((tAfterSend.timeoutFire 1)._handleMessage wResponse1).1.futures 1 =
      some FutureState.timedOut :=
  (c3_timeout_keeps_entry tAfterSend 1 wResponse1
      (by rw [tAfterSend_eq]; decide)
      (by rw [tAfterSend_eq]; decide)
      rfl (by decide)).2.2.2.1

/-- C4 counterexample: a pending, configured talker receiving an accepted
handshake-request does send back exactly one envelope — but it is another
handshake-request (`Posted.handshake false`), not a handshake-confirmation
(`Posted.handshake true`), because line 124 passes `this.handshaken` (still
false) as the confirmation flag before line 125 sets it. -/
theorem c4_counterexample :
    (tPending._receiveMessage evHandshakeReq).2 = [Event.post (Posted.handshake false)] ∧
    (tPending._receiveMessage evHandshakeReq).1.handshaken = true ∧
    Event.post (Posted.handshake true) ∉ (tPending._receiveMessage evHandshakeReq).2 := by
  have hrecv : tPending._receiveMessage evHandshakeReq =
      tPending._handleHandshake wHandshakeReq := rfl
  rw [hrecv, handleHandshake_general]
  decide

/-- C4 amended: a pending channel receiving an accepted handshake-request sets
`handshaken`, resolves the handshake signal, flushes the queue, and sends back
exactly one handshake envelope — whose confirmation flag is the value of
`handshaken` read before the update, i.e. another handshake-request, not a
confirmation. -/
theorem c4_pending_reply (t : Talker) (ev : MessageEvent) (w : WireObject)
    (hp : ev.payload = some w)
    (hh : t.handshaken = false)
    (hsafe : t._isSafeMessage ev.source ev.origin w.type = true)
    (hw : w.handshake = true)
    (hcfg : t.configured = true) :
    (t._receiveMessage ev).1.handshaken = true ∧
    (t._receiveMessage ev).1.handshakeResolved = true ∧
    (t._receiveMessage ev).1._queue = [] ∧
    (t._receiveMessage ev).2 =
      Event.post (Posted.handshake false) ::
        (t._queue.map fun m => Event.post (Posted.data m)) := by
  have hrecv : t._receiveMessage ev = t._handleHandshake w := by
    unfold Talker._receiveMessage
    rw [hp]
    simp [hsafe, hw]
  rw [hrecv, handleHandshake_general]
  refine ⟨rfl, rfl, rfl, ?_⟩
  simp only [hw, if_true, hh]
  rw [flatMap_post _ hcfg _]
  unfold Talker._sendHandshake
  rw [postMessage_configured _ _ hcfg]
  rfl

/-- C4 witness: the amended behaviour at the concrete pending state. -/
theorem c4_witness :
    (tPending._receiveMessage evHandshakeReq).2 =
      Event.post (Posted.handshake false) ::
        (tPending._queue.map fun m => Event.post (Posted.data m)) :=
  (c4_pending_reply tPending evHandshakeReq wHandshakeReq rfl rfl (by decide) rfl
      (by decide)).2.2.2

/-- C5: once `handshaken` is true (signal resolved, queue already drained),
any further accepted inbound handshake message leaves the state exactly
unchanged; a handshake-request triggers the single extra confirmation reply
(`_sendHandshake true`), a handshake-confirmation triggers nothing. -/
theorem c5_established_idempotent (t : Talker) (ev : MessageEvent) (w : WireObject)
    (hp : ev.payload = some w)
    (hh : t.handshaken = true) (hr : t.handshakeResolved = true)
    (hq : t._queue = [])
    (hsafe : t._isSafeMessage ev.source ev.origin w.type = true)
    (hhs : (w.handshake || w.handshakeConfirmation) = true) :
    t._receiveMessage ev = (t, if w.handshake then t._sendHandshake true else []) := by
  have hrecv : t._receiveMessage ev = t._handleHandshake w := by
    unfold Talker._receiveMessage
    rw [hp]
    simp [hsafe, hhs]
  rw [hrecv, handleHandshake_general]
  have hstate : ({ t with handshaken := true, handshakeResolved := true,
                          _queue := [] } : Talker) = t := by
    cases t
    simp_all
  rw [hstate, hq, hh]
  simp

/-- C5 witness: the ready talker absorbs a duplicate handshake-request with no
state change and exactly one confirmation reply. -/
theorem c5_witness :
    tReady._receiveMessage evHandshakeReq =
      (tReady, if wHandshakeReq.handshake then tReady._sendHandshake true else []) :=
  c5_established_idempotent tReady evHandshakeReq wHandshakeReq rfl rfl rfl rfl
    (by decide) rfl

/-- C6 counterexample: for an Incoming envelope whose id is 0 — a value the
wire can deliver — `respond` routes through `send`, but `responseToId || null`
(line 249) squashes the 0 to null, so the produced Outgoing envelope does NOT
carry `responseToId == 0`. -/
theorem c6_counterexample :
    mZero.id = some 0 ∧
    (tReady.newOutgoingMessage none (some "reply") mZero.id).1.responseToId = none ∧
    (mZero.respond tReady (some "reply")).2.2 =
      [Event.post (Posted.data
        { nsp := none, data := some "reply", responseToId := none, id := 1 })] := by
  refine ⟨rfl, by decide, ?_⟩
  have h : mZero.respond tReady (some "reply") =
      tReady.send none (some "reply") mZero.id := rfl
  rw [h, send_established tReady _ _ _ rfl]
  decide

/-- C6 amended: for an Incoming envelope with nonzero id `k` (every id a
conforming peer assigns is ≥ 1), `respond(data)` is exactly
`send(null, data, k)` and the produced Outgoing envelope has
`responseToId == k`; and a sender holding a live pending entry for `k` that
receives an accepted envelope answering `k` resolves that future with the
responding envelope, removes the entry, and does not invoke `onMessage`. -/
theorem c6_respond_links (t tR : Talker) (m : IncomingMessage) (d : Option String)
    (k : Nat) (w : WireObject)
    (hid : m.id = some k) (hk : k ≠ 0)
    (hw : w.responseToId = some k)
    (hsent : k ∈ tR._sent)
    (hfut : lookupFuture tR.futures k = some FutureState.pending) :
    m.respond t d = t.send none d m.id ∧
    (t.newOutgoingMessage none d m.id).1.responseToId = some k ∧
    (tR._handleMessage w).2 = [] ∧
    lookupFuture (tR._handleMessage w).1.futures k =
      some (FutureState.resolved { nsp := w.nsp, data := w.data, id := w.id }) ∧
    k ∉ (tR._handleMessage w).1._sent := by
  have hmsg : tR._handleMessage w =
      tR._respondToMessage k { nsp := w.nsp, data := w.data, id := w.id } := by
    unfold Talker._handleMessage
    simp [hw, truthyNat, hk]
  refine ⟨rfl, ?_, ?_, ?_, ?_⟩
  · unfold Talker.newOutgoingMessage Talker._nextId orNull
    simp [hid, hk]
  · rw [hmsg]
    unfold Talker._respondToMessage
    simp [hsent]
  · rw [hmsg]
    unfold Talker._respondToMessage
    simp only [hsent, if_pos]
    rw [lookupFuture_resolve, hfut]
    rfl
  · rw [hmsg]
    unfold Talker._respondToMessage
    simp only [hsent, if_pos]
    exact not_mem_sentDelete _ _

/-- C6 witness: the amended behaviour at concrete states — the sender that
issued message 1 resolves its pending future with the incoming response. -/
theorem c6_witness :
    lookupFuture (tAfterSend._handleMessage wResponse1).1.futures 1 =
      some (FutureState.resolved
        { nsp := wResponse1.nsp, data := wResponse1.data, id := wResponse1.id }) :=
  (c6_respond_links tReady tAfterSend mOne none 1 wResponse1 rfl (by decide) rfl
      (by rw [tAfterSend_eq]; decide) (by rw [tAfterSend_eq]; decide)).2.2.2.1

/-- C7: the id counter starts at 0 (constructor), `_nextId` increments before
returning (so it never decrements and never repeats), and the ids assigned to
any run of Outgoing-envelope constructions on one talker are the consecutive
values after the current counter — strictly increasing, hence pairwise
distinct. -/
theorem c7_monotone_ids (rWin : Option Nat) (rOrig : Option String)
    (t : Talker) (calls : List SendCall) :
    (Talker.init rWin rOrig).1._id = 0 ∧
    t._nextId = (t._id + 1, { t with _id := t._id + 1 }) ∧
    ((constructAll t calls).1.map OutgoingMessage.id) =
      List.range' (t._id + 1) calls.length ∧
    ((constructAll t calls).1.map OutgoingMessage.id).Pairwise (· < ·) := by
  refine ⟨rfl, rfl, (constructAll_ids calls t).1, ?_⟩
  rw [(constructAll_ids calls t).1]
  exact List.pairwise_lt_range' ..

/-- C8: an unparsable inbound payload is replaced by the empty envelope, whose
missing type tag fails `_isSafeMessage`, so the message is discarded with no
event and no state change — no error propagates. -/
theorem c8_parse_failure (t : Talker) (ev : MessageEvent) (hp : ev.payload = none) :
    t._isSafeMessage ev.source ev.origin WireObject.empty.type = false ∧
    t._receiveMessage ev = (t, []) := by
  have hsafe : t._isSafeMessage ev.source ev.origin WireObject.empty.type = false := by
    unfold Talker._isSafeMessage
    simp [WireObject.empty]
  refine ⟨hsafe, ?_⟩
  unfold Talker._receiveMessage
  rw [hp]
  simp [hsafe]

/-- C8 witness: the ready talker drops a garbage payload outright. -/
theorem c8_witness : tReady._receiveMessage evGarbage = (tReady, []) :=
  (c8_parse_failure tReady evGarbage rfl).2

/-- C9: `_postMessage` reaches the transport exactly when both `remoteWindow`
and `remoteOrigin` are truthy (non-null, non-empty); when not, a post, a
handshake send, and the transmissions of a queue flush are all silently
skipped. -/
theorem c9_unconfigured_skip (t : Talker) (p : Posted) (c : Bool) :
    (t._postMessage p = if t.configured then [Event.post p] else []) ∧
    (t.configured = false →
      t._postMessage p = [] ∧ t._sendHandshake c = [] ∧ (t._flushQueue).2 = []) := by
  constructor
  · rfl
  · intro h
    refine ⟨postMessage_unconfigured t p h, ?_, ?_⟩
    · unfold Talker._sendHandshake
      exact postMessage_unconfigured t _ h
    · rw [flushQueue_events]
      by_cases hh : t.handshaken
      · simp [hh, flatMap_post_nil t h]
      · simp [hh]

/-- C9 witness: with no remote window, nothing is ever posted. -/
theorem c9_witness :
    tNoWindow._postMessage (Posted.handshake false) = [] ∧
    tNoWindow._sendHandshake false = [] ∧ (tNoWindow._flushQueue).2 = [] :=
  (c9_unconfigured_skip tNoWindow (Posted.handshake false) false).2 (by decide)

/-- C10: an accepted non-handshake message with a truthy `responseToId` whose
id has no live entry in `_sent` is silently dropped: no future is resolved,
`onMessage` is not invoked, and the state is unchanged. -/
theorem c10_stale_response_dropped (t : Talker) (w : WireObject) (k : Nat)
    (hw : w.responseToId = some k) (hk : k ≠ 0) (hdead : k ∉ t._sent) :
    t._handleMessage w = (t, []) := by
  unfold Talker._handleMessage Talker._respondToMessage
  simp [hw, truthyNat, hk, hdead]

/-- C10 witness: a response for id 1 with no pending entry does nothing. -/
theorem c10_witness : tReady._handleMessage wResponse1 = (tReady, []) :=
  c10_stale_response_dropped tReady wResponse1 1 rfl (by decide) (by decide)
